import Mathlib

/-!
Shallow embedding of the my-shoppingmall storefront core: the product
repository (`lib/supabase/queries/products.ts`), the cart repository
(`lib/supabase/queries/cart.ts`) and the order workflow
(`actions/order.ts`).

JavaScript numbers are modelled as `Option ℚ`, with `none` playing the
role of `NaN` (the result of `parseFloat` on a malformed stored price):
arithmetic propagates `none`, and every comparison against `none` is
`false`, exactly as `NaN` behaves in JavaScript.  The database is a
record of four tables (lists of rows) plus failure-injection fields that
model the error outcome of each fallible storage call made by the order
workflow.  Unordered reads return rows in table order; `order by` is a
stable sort, matching the stability of `Array.prototype.sort` and of the
database's order-by at the granularity the claims need.
-/

namespace Shop

/-- A JavaScript number: `none` models `NaN`. -/
abbrev JNum := Option ℚ

/-- JS addition: `NaN` propagates. -/
def jadd : JNum → JNum → JNum
  | some a, some b => some (a + b)
  | _, _ => none

/-- JS multiplication: `NaN` propagates. -/
def jmul : JNum → JNum → JNum
  | some a, some b => some (a * b)
  | _, _ => none

/-- JS subtraction: `NaN` propagates. -/
def jsub : JNum → JNum → JNum
  | some a, some b => some (a - b)
  | _, _ => none

/-- `Math.abs`: `NaN` propagates. -/
def jabs : JNum → JNum
  | some a => some |a|
  | none => none

/-- Embed a nonnegative integer quantity as a JS number. -/
def jofNat (n : Nat) : JNum := some (n : ℚ)

/-- JS `x > c` for a numeric literal `c`: false when `x` is `NaN`. -/
def jgtB (a : JNum) (c : ℚ) : Bool :=
  match a with
  | some x => decide (c < x)
  | none => false

/-- JS `x <= c` for a numeric literal `c`: false when `x` is `NaN`. -/
def jleB (a : JNum) (c : ℚ) : Bool :=
  match a with
  | some x => decide (x ≤ c)
  | none => false

/-- `isNaN(x) ? 0 : x` — the zero fallback applied by some reads. -/
def jnanToZero (a : JNum) : JNum := some (a.getD 0)

/-- A row of the `products` table.  `priceRaw` is the value `parseFloat`
yields on the stored decimal-as-text price; `none` models a malformed
stored price (`parseFloat` → `NaN`).  `created_at` is a timestamp
(larger = more recent). -/
structure ProductRow where
  id : Nat
  name : String
  priceRaw : JNum
  category : String
  stock_quantity : Nat
  is_active : Bool
  created_at : Nat
  deriving DecidableEq, Repr

/-- A product as returned to callers, after price coercion. -/
structure Product where
  id : Nat
  name : String
  price : JNum
  category : String
  stock_quantity : Nat
  is_active : Bool
  created_at : Nat
  deriving DecidableEq, Repr

/-- `{...product, price: parseFloat(product.price)}` — no `NaN` guard. -/
def productRaw (p : ProductRow) : Product :=
  ⟨p.id, p.name, p.priceRaw, p.category, p.stock_quantity, p.is_active, p.created_at⟩

/-- `{...product, price: isNaN(parsed) ? 0 : parsed}` — with `NaN` guard. -/
def productZero (p : ProductRow) : Product :=
  ⟨p.id, p.name, jnanToZero p.priceRaw, p.category, p.stock_quantity, p.is_active, p.created_at⟩

/-- A row of the `cart_items` table. -/
structure CartRow where
  id : Nat
  clerk_id : String
  product_id : Nat
  quantity : Nat
  created_at : Nat
  deriving DecidableEq, Repr

/-- A row of the `order_items` table. -/
structure OrderItemRow where
  order_id : Nat
  product_id : Nat
  product_name : String
  quantity : Nat
  price : JNum
  deriving DecidableEq, Repr

/-- The shipping address blob stored on an order. -/
structure ShippingAddress where
  recipientName : String
  phone : String
  address : String
  deriving DecidableEq, Repr

/-- A row of the `orders` table. -/
structure OrderRow where
  id : Nat
  clerk_id : String
  total_amount : JNum
  status : String
  shipping_address : ShippingAddress
  order_note : Option String
  deriving DecidableEq, Repr

/-- A thrown JavaScript value: `isError` records whether it is an
`Error` instance (`error instanceof Error`), `message` its message. -/
structure Exn where
  isError : Bool
  message : String
  deriving DecidableEq, Repr

/-- The database state, plus failure-injection fields modelling the
error outcome of each fallible storage call used by the order workflow:
`cartReadError` is the error of the `cart_items` select (thrown by
`getCartItems`), `orderInsertError` / `orderItemsInsertError` the error
results of the two inserts (handled in-branch by the action), and
`clearCartError` the error thrown by `clearCart`. -/
structure DB where
  products : List ProductRow
  cart_items : List CartRow
  orders : List OrderRow
  order_items : List OrderItemRow
  nextCartId : Nat
  nextOrderId : Nat
  nowTime : Nat
  cartReadError : Option Exn
  orderInsertError : Bool
  orderItemsInsertError : Bool
  clearCartError : Option Exn
  deriving DecidableEq, Repr

/-- Stable descending sort by a natural-number key (e.g.
`order('created_at', { ascending: false })`). -/
def sortDescNat (key : α → Nat) (l : List α) : List α :=
  l.insertionSort (fun a b => key b ≤ key a)

/-- Sort key used for `order('price', ...)`: the database orders by the
stored decimal; a malformed stored price is placed as zero (its position
is irrelevant to every claim). -/
def priceKey (p : ProductRow) : ℚ := (p.priceRaw.getD 0)

/-- Stable ascending sort by a rational key. -/
def sortAscRat (key : α → ℚ) (l : List α) : List α :=
  l.insertionSort (fun a b => key a ≤ key b)

/-- Stable descending sort by a rational key. -/
def sortDescRat (key : α → ℚ) (l : List α) : List α :=
  l.insertionSort (fun a b => key b ≤ key a)

/-- `.single()`: `some` when the filter matches exactly one row, `none`
otherwise (zero or several rows yield the PGRST116 error the callers
treat as "no row"). -/
def findOne? (p : α → Bool) (l : List α) : Option α :=
  match l.filter p with
  | [x] => some x
  | _ => none

/-- The active products, newest first (`getActiveProducts`): filters
`is_active`, orders by `created_at` descending, and maps each price
through `parseFloat` with no `NaN` guard. -/
def getActiveProducts (db : DB) : List Product :=
  (sortDescNat (fun p : ProductRow => p.created_at) (db.products.filter (·.is_active))).map productRaw

/-- `item.quantity || 0` summed per product id, in first-occurrence
order — the JS `Map` built by the popularity aggregation. -/
def salesFold (l : List OrderItemRow) : List (Nat × Nat) :=
  l.foldl
    (fun m it =>
      if m.any (fun kv => kv.1 == it.product_id) then
        m.map (fun kv => if kv.1 == it.product_id then (kv.1, kv.2 + it.quantity) else kv)
      else m ++ [(it.product_id, it.quantity)])
    []

/-- `salesMap.get(pid) || 0`. -/
def salesTotal (db : DB) (pid : Nat) : Nat :=
  ((salesFold db.order_items).lookup pid).getD 0

/-- `Array.from(salesMap.keys())` — every product id appearing in
`order_items`, in first-occurrence order. -/
def popSalesKeys (db : DB) : List Nat :=
  (salesFold db.order_items).map (·.1)

/-- The most-recently-created active products, cut to `limit`
(`order('created_at', desc).limit(limit)`), prices mapped with no `NaN`
guard — the backfill fetch of `getPopularProducts`. -/
def latestActive (db : DB) (limit : Nat) : List Product :=
  ((sortDescNat (fun p : ProductRow => p.created_at) (db.products.filter (·.is_active))).take limit).map productRaw

/-- The sales-ranked active products of `getPopularProducts` before the
`limit` cut: the active products having an order-line entry, sorted
descending by aggregated quantity, prices mapped with no `NaN` guard. -/
def popRankedAll (db : DB) : List Product :=
  (sortDescNat (fun p => salesTotal db p.id)
      (db.products.filter (fun p => p.is_active && (popSalesKeys db).contains p.id))).map
    productRaw

/-- Step 3 of `getPopularProducts`: the sales-ranked products cut to
`limit` (empty when no order line exists). -/
def popular0 (db : DB) (limit : Nat) : List Product :=
  if (popSalesKeys db).isEmpty then [] else (popRankedAll db).take limit

/-- Step 4 of `getPopularProducts`: backfill a short ranking with the
most-recent active products not already included. -/
def popular1 (db : DB) (limit : Nat) : List Product :=
  if (popular0 db limit).length < limit then
    popular0 db limit ++
      ((latestActive db limit).filter
          (fun p => ! ((popular0 db limit).map (·.id)).contains p.id)).take
        (limit - (popular0 db limit).length)
  else popular0 db limit

/-- `getPopularProducts(limit)` under the no-transport-failure
semantics: aggregate sales, rank the active products that have an
order-line entry by aggregated quantity, cut to `limit`, then backfill
with most-recent active products not already included; if the result is
still empty, fall back to the most-recent active products. -/
def getPopularProducts (db : DB) (limit : Nat) : List Product :=
  if (popular1 db limit).isEmpty then latestActive db limit else popular1 db limit

/-- The sort keys accepted by the paginated listing. -/
inductive SortOption where
  | latest
  | priceAsc
  | priceDesc
  | popularity
  deriving DecidableEq, Repr

/-- The category filter of a query: `none` or the literal `"all"` mean
"no filter". -/
def matchesCat (cat : Option String) (p : ProductRow) : Bool :=
  match cat with
  | none => true
  | some c => if c == "all" then true else p.category == c

/-- The result shape of the paginated listing. -/
structure Paged where
  products : List Product
  totalCount : Nat
  currentPage : Nat
  totalPages : Nat
  deriving DecidableEq, Repr

/-- `Math.ceil(a / b)` on exact counts. -/
def ceilDiv (a b : Nat) : Nat := (a + b - 1) / b

/-- The `switch (sortBy)` of the paginated listing: the order-by applied
to the matching rows (the `popularity` arm is the switch's default,
unreachable from the wrapper). -/
def sortRows (sortBy : SortOption) (rows : List ProductRow) : List ProductRow :=
  match sortBy with
  | .latest => sortDescNat (fun p : ProductRow => p.created_at) rows
  | .priceAsc => sortAscRat priceKey rows
  | .priceDesc => sortDescRat priceKey rows
  | .popularity => sortDescNat (fun p : ProductRow => p.created_at) rows

/-- The non-popularity body of `getProductsWithPagination`, taking the
already-clamped page and limit: the offset is computed from the clamped
page *before* the downward page adjustment, the matching rows are
filtered (active, category), sorted, sliced with `range`, counted
exactly, and prices are coerced with the `NaN`-to-zero guard. -/
def paginateCore (db : DB) (cat : Option String) (validPage validLimit : Nat)
    (sortBy : SortOption) : Paged :=
  let offset := (validPage - 1) * validLimit
  let rows := db.products.filter (fun p => p.is_active && matchesCat cat p)
  let sorted := sortRows sortBy rows
  let pageRows := (sorted.drop offset).take validLimit
  let totalCount := rows.length
  let totalPages := max 1 (ceilDiv totalCount validLimit)
  let adjustedPage := min validPage totalPages
  ⟨pageRows.map productZero, totalCount, adjustedPage, totalPages⟩

/-- Total matching count of the popularity-paginated listing. -/
def popTotalCount (db : DB) (cat : Option String) : Nat :=
  (db.products.filter (fun p => p.is_active && matchesCat cat p)).length

/-- Total pages of the popularity-paginated listing. -/
def popTotalPages (db : DB) (cat : Option String) (limit : Nat) : Nat :=
  max 1 (ceilDiv (popTotalCount db cat) limit)

/-- The adjusted page of the popularity-paginated listing (clamped page
reduced to the total page count when it exceeds it). -/
def popAdjustedPage (db : DB) (cat : Option String) (page limit : Nat) : Nat :=
  min page (popTotalPages db cat limit)

/-- Offset of the popularity-paginated listing — computed from the
*adjusted* page, unlike the non-popularity path. -/
def popOffset (db : DB) (cat : Option String) (page limit : Nat) : Nat :=
  (popAdjustedPage db cat page limit - 1) * limit

/-- The sales-ranked active products of the requested category, prices
coerced with the `NaN`-to-zero guard. -/
def popRanked (db : DB) (cat : Option String) : List Product :=
  if (popSalesKeys db).isEmpty then []
  else
    (sortDescNat (fun p => salesTotal db p.id)
        (db.products.filter
          (fun p => p.is_active && (popSalesKeys db).contains p.id && matchesCat cat p))).map
      productZero

/-- The page slice of the sales-ranked products
(`productsWithSales.slice(offset, offset + limit)`). -/
def popSlice (db : DB) (cat : Option String) (page limit : Nat) : List Product :=
  ((popRanked db cat).drop (popOffset db cat page limit)).take limit

/-- The products already selected on the page (`existingIds`). -/
def popExistingIds (db : DB) (cat : Option String) (page limit : Nat) : List Nat :=
  (popSlice db cat page limit).map (·.id)

/-- JS `[...new Set(l)]`: duplicates removed, first occurrence kept. -/
def jsDedup (l : List Nat) : List Nat :=
  l.foldl (fun acc x => if acc.contains x then acc else acc ++ [x]) []

/-- The ids excluded by the guarded second `not-in` filter of the
backfill query (`idsToExclude`). -/
def popIdsToExclude (db : DB) (cat : Option String) (page limit : Nat) : List Nat :=
  jsDedup (popExistingIds db cat page limit ++ popSalesKeys db)

/-- The backfill products appended when the sales-ranked slice is short:
recency-ordered active products of the category, minus the
already-selected ids, and minus `idsToExclude` only when that list has
at most 100 entries (the Supabase `in`-filter size guard), cut to the
number still needed. -/
def popPadding (db : DB) (cat : Option String) (page limit : Nat) : List Product :=
  let needed := limit - (popSlice db cat page limit).length
  let existingIds := popExistingIds db cat page limit
  let base :=
    sortDescNat (fun p : ProductRow => p.created_at)
      (db.products.filter (fun p => p.is_active && matchesCat cat p))
  let f1 := if existingIds.isEmpty then base else base.filter (fun p => ! existingIds.contains p.id)
  let ids2 := popIdsToExclude db cat page limit
  let f2 :=
    if 0 < ids2.length ∧ ids2.length ≤ 100 then f1.filter (fun p => ! ids2.contains p.id)
    else f1
  ((f2.take needed).map productZero)

/-- `getProductsWithPaginationByPopularity` under the no-failure
semantics: with no order line at all it falls back to the latest-first
listing; otherwise it counts, slices the sales ranking to the page, and
pads a short slice with the backfill query. -/
def byPopularity (db : DB) (cat : Option String) (page limit : Nat) : Paged :=
  if db.order_items.isEmpty then paginateCore db cat page limit .latest
  else
    let sliced := popSlice db cat page limit
    let final := if sliced.length < limit then sliced ++ popPadding db cat page limit else sliced
    ⟨final, popTotalCount db cat, popAdjustedPage db cat page limit,
      popTotalPages db cat limit⟩

/-- `getProductsWithPagination`: clamps page and limit to a minimum of
1, dispatches the popularity sort to its own procedure, and otherwise
runs the core paginated query. -/
def getProductsWithPagination (db : DB) (cat : Option String) (page limit : Int)
    (sortBy : SortOption) : Paged :=
  let validPage := (max 1 page).toNat
  let validLimit := (max 1 limit).toNat
  if sortBy = .popularity then byPopularity db cat validPage validLimit
  else paginateCore db cat validPage validLimit sortBy

/-- `getProductById`: the single active product with the identifier, or
`null`; price coerced with the `NaN`-to-zero guard. -/
def getProductById (db : DB) (pid : Nat) : Option Product :=
  (findOne? (fun p => p.id == pid && p.is_active) db.products).map productZero

/-- A cart row joined with its product (`CartItemWithProduct`). -/
structure CartItemWithProduct where
  id : Nat
  clerk_id : String
  product_id : Nat
  quantity : Nat
  created_at : Nat
  product : Product
  deriving DecidableEq, Repr

/-- The successful body of `getCartItems`: the user's cart rows newest
first, each joined with its `products` row.  The embedded select has no
filter on `is_active`, so the join is `null` — and the row dropped —
only when the referenced product row does not exist; the joined price is
`parseFloat` with no `NaN` guard. -/
def getCartItemsOk (db : DB) (u : String) : List CartItemWithProduct :=
  (sortDescNat (fun r : CartRow => r.created_at) (db.cart_items.filter (fun r => r.clerk_id == u))).filterMap
    (fun r =>
      (db.products.find? (fun p => p.id == r.product_id)).map
        (fun p => ⟨r.id, r.clerk_id, r.product_id, r.quantity, r.created_at, productRaw p⟩))

/-- `getCartItems`, throwing the select's error when the storage call
fails. -/
def getCartItemsE (db : DB) (u : String) : Except Exn (List CartItemWithProduct) :=
  match db.cartReadError with
  | some e => .error e
  | none => .ok (getCartItemsOk db u)

/-- The derived cart summary. -/
structure CartSummary where
  totalItems : Nat
  totalAmount : JNum
  shippingFee : JNum
  grandTotal : JNum
  deriving DecidableEq, Repr

/-- The summing loop of `getCartSummary`: quantities into `totalItems`,
`price * quantity` into `totalAmount`, shipping fee a constant zero,
grand total their sum. -/
def cartSummaryOf (items : List CartItemWithProduct) : CartSummary :=
  let totalItems := items.foldl (fun acc it => acc + it.quantity) 0
  let totalAmount := items.foldl (fun acc it => jadd acc (jmul it.product.price (jofNat it.quantity))) (jofNat 0)
  let shippingFee := jofNat 0
  ⟨totalItems, totalAmount, shippingFee, jadd totalAmount shippingFee⟩

/-- `getCartSummary`: recomputed from a fresh `getCartItems` read. -/
def getCartSummaryE (db : DB) (u : String) : Except Exn CartSummary :=
  (getCartItemsE db u).map cartSummaryOf

/-- Error message of `addToCart` when the product is missing or
inactive. -/
def productNotFoundMsg : String := "상품을 찾을 수 없습니다."

/-- Error message of `addToCart` when the product is out of stock. -/
def soldOutMsg : String := "품절된 상품입니다."

/-- Error message of the stock-ceiling check, naming the available stock
and the requested total. -/
def stockShortMsg (stock requested : Nat) : String :=
  "재고가 부족합니다. (현재 재고: " ++ toString stock ++ "개, 요청 수량: " ++ toString requested ++ "개)"

/-- `addToCart(clerkId, productId, quantity)`: looks up the active
product, rejects a zero stock, then either merges the quantity into the
existing cart row for the pair — checking the merged total against
stock — or inserts a new row with the requested quantity, under the same
stock check.  Returns the written row and the new state. -/
def addToCart (db : DB) (u : String) (pid : Nat) (q : Nat) : Except String (CartRow × DB) :=
  match findOne? (fun p => p.id == pid && p.is_active) db.products with
  | none => .error productNotFoundMsg
  | some product =>
    if product.stock_quantity = 0 then .error soldOutMsg
    else
      match findOne? (fun r : CartRow => r.clerk_id == u && r.product_id == pid) db.cart_items with
      | some existingItem =>
        let finalQuantity := existingItem.quantity + q
        if product.stock_quantity < finalQuantity then
          .error (stockShortMsg product.stock_quantity finalQuantity)
        else
          let updated := db.cart_items.map
            (fun r => if r.id == existingItem.id then { r with quantity := finalQuantity } else r)
          .ok ({ existingItem with quantity := finalQuantity }, { db with cart_items := updated })
      | none =>
        if product.stock_quantity < q then .error (stockShortMsg product.stock_quantity q)
        else
          let row : CartRow := ⟨db.nextCartId, u, pid, q, db.nowTime⟩
          .ok (row, { db with cart_items := db.cart_items ++ [row], nextCartId := db.nextCartId + 1 })

/-- `clearCart`: delete every cart row of the user. -/
def clearCartRows (db : DB) (u : String) : DB :=
  { db with cart_items := db.cart_items.filter (fun r => ! (r.clerk_id == u)) }

/-- The result type of the order server action. -/
inductive ActionResult where
  | success (orderId : Nat)
  | failure (error : String)
  deriving DecidableEq, Repr

/-- The input of `createOrderAction`.  `shippingAddress` is `none` when
the client omitted it; `expectedTotalAmount` is a JS number. -/
structure CreateOrderData where
  shippingAddress : Option ShippingAddress
  orderNote : Option String
  expectedTotalAmount : JNum
  deriving DecidableEq, Repr

/-- "login required" failure message. -/
def loginRequiredMsg : String := "로그인이 필요합니다."

/-- "enter a shipping address" failure message. -/
def shippingMissingMsg : String := "배송지 정보를 입력해주세요."

/-- "invalid order amount" failure message. -/
def invalidAmountMsg : String := "주문 금액 정보가 유효하지 않습니다."

/-- "cart is empty" failure message. -/
def cartEmptyMsg : String := "장바구니가 비어있습니다."

/-- "amount changed, please refresh" failure message. -/
def amountMismatchMsg : String := "주문 금액이 변경되었습니다. 페이지를 새로고침 후 다시 시도해주세요."

/-- Order-header storage failure message. -/
def orderSaveFailMsg : String := "주문 저장 중 오류가 발생했습니다."

/-- Order-line-item storage failure message. -/
def orderItemsSaveFailMsg : String := "주문 아이템 저장 중 오류가 발생했습니다."

/-- Generic fallback message of the outermost catch. -/
def genericOrderFailMsg : String := "주문 생성 중 오류가 발생했습니다."

/-- The body of `createOrderAction` (everything inside the `try`):
authentication, input-shape checks, cart snapshot, summary
recomputation, the 0.01 reconciliation, the order-header insert, the
line-item batch insert, and the cart clearing.  A thrown JS value is an
`Except.error` carrying the state at the throw point; anticipated
failures are `ok` results with their message. -/
def createOrderBody (db : DB) (uid : Option String) (od : CreateOrderData) :
    Except (Exn × DB) (ActionResult × DB) :=
  match uid with
  | none => .ok (.failure loginRequiredMsg, db)
  | some userId =>
    match od.shippingAddress with
    | none => .ok (.failure shippingMissingMsg, db)
    | some addr =>
      if jleB od.expectedTotalAmount 0 then .ok (.failure invalidAmountMsg, db)
      else
        match getCartItemsE db userId with
        | .error e => .error (e, db)
        | .ok cartItems =>
          if cartItems.isEmpty then .ok (.failure cartEmptyMsg, db)
          else
            match getCartSummaryE db userId with
            | .error e => .error (e, db)
            | .ok cartSummary =>
              if jgtB (jabs (jsub cartSummary.grandTotal od.expectedTotalAmount)) (1 / 100) then
                .ok (.failure amountMismatchMsg, db)
              else if db.orderInsertError then .ok (.failure orderSaveFailMsg, db)
              else
                let ord : OrderRow :=
                  ⟨db.nextOrderId, userId, cartSummary.grandTotal, "pending", addr,
                    match od.orderNote with
                    | some s => if s = "" then none else some s
                    | none => none⟩
                let db1 := { db with orders := db.orders ++ [ord], nextOrderId := db.nextOrderId + 1 }
                if db.orderItemsInsertError then .ok (.failure orderItemsSaveFailMsg, db1)
                else
                  let batch := cartItems.map
                    (fun it => OrderItemRow.mk ord.id it.product_id it.product.name it.quantity it.product.price)
                  let db2 := { db1 with order_items := db1.order_items ++ batch }
                  match db.clearCartError with
                  | some e => .error (e, db2)
                  | none => .ok (.success ord.id, clearCartRows db2 userId)

/-- `createOrderAction`: the body wrapped in the outermost catch, which
turns a thrown `Error` into a failure carrying the error's own message
and any other thrown value into the generic failure message. -/
def createOrderAction (db : DB) (uid : Option String) (od : CreateOrderData) :
    ActionResult × DB :=
  match createOrderBody db uid od with
  | .ok r => r
  | .error (e, db') => (.failure (if e.isError then e.message else genericOrderFailMsg), db')

/-! ## Example states used by concrete witnesses and counterexamples -/

/-- A database with the given tables and no injected storage failure. -/
def mkDB (ps : List ProductRow) (cs : List CartRow) (ois : List OrderItemRow) : DB :=
  ⟨ps, cs, [], ois, 100, 1, 999, none, false, false, none⟩

/-- A shipping address used by the concrete order inputs. -/
def exAddr : ShippingAddress := ⟨"김철수", "010-1234-5678", "서울시 강남구"⟩

/-- An active 10-per-unit product with stock 5. -/
def exProd1 : ProductRow := ⟨1, "상품1", some 10, "books", 5, true, 10⟩

/-- The inactive variant of `exProd1`. -/
def exProd1Off : ProductRow := ⟨1, "상품1", some 10, "books", 5, false, 10⟩

/-- An active product whose stored price fails numeric coercion. -/
def exProdBad : ProductRow := ⟨2, "상품2", none, "books", 5, true, 20⟩

/-- A cart of user `"u"` holding one unit of product 1. -/
def exCart1 : CartRow := ⟨7, "u", 1, 1, 50⟩

/-! ## C1 — amount mismatch rejects and writes nothing -/

/-- Counterexample to C1 as stated: with an authenticated user, a
present address, a positive expected total of 100 and an *empty* cart,
the recomputed grand total is 0, so the absolute difference (100)
exceeds 0.01 — yet the action returns the cart-empty failure, not the
amount-mismatch failure. -/
theorem c1_counterexample_empty_cart :
    jgtB (jabs (jsub (cartSummaryOf (getCartItemsOk (mkDB [exProd1] [] []) "u")).grandTotal
        (some 100))) (1 / 100) = true ∧
    (createOrderAction (mkDB [exProd1] [] [])
        (some "u") ⟨some exAddr, none, some 100⟩).1 = .failure cartEmptyMsg ∧
    cartEmptyMsg ≠ amountMismatchMsg := by
  refine ⟨?_, ?_, by decide⟩
  · norm_num [jgtB, jabs, jsub, cartSummaryOf, getCartItemsOk, mkDB, jadd, jmul, jofNat,
      sortDescNat, List.insertionSort]
  · norm_num [createOrderAction, createOrderBody, jleB, getCartItemsE, getCartItemsOk, mkDB,
      sortDescNat, List.insertionSort]

/-- C1 amended: *when the reconciliation step is reached* — the user is
authenticated, a shipping address is present, the expected total passes
the positivity check, the cart read succeeds and the cart is non-empty —
an absolute difference above 0.01 between the recomputed grand total and
the client-supplied expected total makes `createOrderAction` return the
amount-mismatch failure with the state unchanged (in particular no
`orders` and no `order_items` row is written). -/
theorem c1_mismatch_rejects_and_writes_nothing (db : DB) (u : String)
    (od : CreateOrderData) (a : ShippingAddress)
    (haddr : od.shippingAddress = some a)
    (hpos : jleB od.expectedTotalAmount 0 = false)
    (hread : db.cartReadError = none)
    (hne : getCartItemsOk db u ≠ [])
    (hmis : jgtB (jabs (jsub (cartSummaryOf (getCartItemsOk db u)).grandTotal
        od.expectedTotalAmount)) (1 / 100) = true) :
    createOrderAction db (some u) od = (.failure amountMismatchMsg, db) := by
  unfold createOrderAction createOrderBody
  rw [haddr]
  simp only [hpos, Bool.false_eq_true, if_false, getCartItemsE, hread, getCartSummaryE,
    Except.map, List.isEmpty_eq_true, hne, if_false, hmis, if_true]

/-- Witness for the amended C1 at a concrete state: one cart line worth
10 versus an expected total of 100. -/
theorem c1_mismatch_witness :
    createOrderAction (mkDB [exProd1] [exCart1] []) (some "u")
      ⟨some exAddr, none, some 100⟩ =
      (.failure amountMismatchMsg, mkDB [exProd1] [exCart1] []) := by
  refine c1_mismatch_rejects_and_writes_nothing (mkDB [exProd1] [exCart1] []) "u"
    ⟨some exAddr, none, some 100⟩ exAddr rfl ?_ rfl ?_ ?_
  · norm_num [jleB]
  · simp [getCartItemsOk, mkDB, sortDescNat, List.insertionSort, exCart1, exProd1]
  · norm_num [jgtB, jabs, jsub, cartSummaryOf, getCartItemsOk, mkDB, jadd, jmul, jofNat,
      sortDescNat, List.insertionSort, exCart1, exProd1, productRaw, List.filterMap_cons,
      List.find?, List.foldl_cons]

/-! ## C3 — the outermost catch and the generic failure message -/

/-- Counterexample to C3 as stated: a non-anticipated exception that is
an `Error` instance (here the cart-read select throwing with message
"connection reset") is caught at the boundary, but the action returns
the exception's *own* message, not the fixed generic
order-creation-failed message. -/
theorem c3_counterexample_error_message_leaks :
    (createOrderAction
        { mkDB [exProd1] [exCart1] [] with cartReadError := some ⟨true, "connection reset"⟩ }
        (some "u") ⟨some exAddr, none, some 10⟩).1 = .failure "connection reset" ∧
    "connection reset" ≠ genericOrderFailMsg := by
  refine ⟨by decide, by decide⟩

/-- C3 amended: every exception thrown inside the body is absorbed at
the outermost boundary and converted into a failure result — but the
message is the generic order-creation-failed text only when the thrown
value is *not* an `Error` instance; an `Error`'s own message is returned
as-is. -/
theorem c3_boundary_converts_exceptions (db : DB) (uid : Option String)
    (od : CreateOrderData) (e : Exn) (db' : DB)
    (h : createOrderBody db uid od = .error (e, db')) :
    createOrderAction db uid od =
      (.failure (if e.isError then e.message else genericOrderFailMsg), db') := by
  unfold createOrderAction
  rw [h]

/-- Witness for the amended C3: a non-`Error` throw yields the generic
message. -/
theorem c3_boundary_witness :
    createOrderAction
        { mkDB [exProd1] [exCart1] [] with cartReadError := some ⟨false, "weird throw"⟩ }
        (some "u") ⟨some exAddr, none, some 10⟩ =
      (.failure genericOrderFailMsg,
        { mkDB [exProd1] [exCart1] [] with cartReadError := some ⟨false, "weird throw"⟩ }) := by
  exact c3_boundary_converts_exceptions _ _ _ ⟨false, "weird throw"⟩ _
    (by norm_num [createOrderBody, jleB, getCartItemsE, mkDB])

/-! ## C4 — inactive products and customer-facing reads -/

/-- C4 failing input: product 1 is inactive yet sits in user "u"'s cart.
The four product-repository reads exclude it, but `getCartItems` — whose
embedded join carries no `is_active` filter and whose null-check only
drops rows referencing a *deleted* product — still returns the cart row
with the inactive product, contradicting both the spec and the
function's own comment. -/
theorem c4_cart_read_returns_inactive_product :
    (getCartItemsOk (mkDB [exProd1Off] [exCart1] []) "u").map
        (fun c => (c.product_id, c.product.is_active)) = [(1, false)] ∧
    getActiveProducts (mkDB [exProd1Off] [exCart1] []) = [] ∧
    getProductById (mkDB [exProd1Off] [exCart1] []) 1 = none := by
  refine ⟨by decide, by decide, by decide⟩

/-! ## C8 — malformed stored prices -/

/-- Counterexample to C8 as stated: `getActiveProducts` maps a malformed
stored price through `parseFloat` with no `NaN` guard, so the returned
price is `NaN` (modelled `none`), not 0; `getCartItems` behaves the same
way. -/
theorem c8_counterexample_nan_price :
    (getActiveProducts (mkDB [exProdBad] [] [])).map (·.price) = [none] ∧
    (getCartItemsOk (mkDB [exProdBad] [⟨7, "u", 2, 1, 50⟩] []) "u").map (·.product.price) =
      [none] ∧
    (none : JNum) ≠ some 0 := by
  refine ⟨by decide, by decide, by decide⟩

/-- Every product in a `map productZero` image carries a numeric (non-`NaN`)
price. -/
theorem price_some_of_mem_map_productZero {r : Product} {l : List ProductRow}
    (h : r ∈ l.map productZero) : ∃ q : ℚ, r.price = some q := by
  rcases List.mem_map.mp h with ⟨p, _, rfl⟩
  exact ⟨p.priceRaw.getD 0, rfl⟩

/-- Members of the sales-ranked list carry numeric prices. -/
theorem price_some_of_mem_popRanked {r : Product} {db : DB} {cat : Option String}
    (h : r ∈ popRanked db cat) : ∃ q : ℚ, r.price = some q := by
  unfold popRanked at h
  split at h
  · simp at h
  · exact price_some_of_mem_map_productZero h

/-- C8 amended: the reads never throw on a malformed price, but the
zero fallback (with a logged warning) belongs only to
`getProductsWithPagination` (both variants) and `getProductById`;
`getActiveProducts` and `getCartItems` return the raw `parseFloat`
result, i.e. `NaN`, for a malformed price.  Stated here for the
paginated listing: every returned product of every call, any sort key
included, carries a numeric price (a malformed one having been coerced
to 0), never `NaN`. -/
theorem c8_pagination_price_never_nan (db : DB) (cat : Option String)
    (page limit : Int) (sortBy : SortOption) (r : Product)
    (h : r ∈ (getProductsWithPagination db cat page limit sortBy).products) :
    ∃ q : ℚ, r.price = some q := by
  unfold getProductsWithPagination at h
  split at h
  · unfold byPopularity at h
    split at h
    · unfold paginateCore at h
      exact price_some_of_mem_map_productZero h
    · simp only at h
      split at h
      · rcases List.mem_append.mp h with h' | h'
        · unfold popSlice at h'
          exact price_some_of_mem_popRanked
            (List.mem_of_mem_drop (List.mem_of_mem_take h'))
        · exact price_some_of_mem_map_productZero h'
      · unfold popSlice at h
        exact price_some_of_mem_popRanked
          (List.mem_of_mem_drop (List.mem_of_mem_take h))
  · unfold paginateCore at h
    exact price_some_of_mem_map_productZero h

/-- Witness for the amended C8: the malformed-price product comes back
from the paginated listing with price 0. -/
theorem c8_pagination_witness :
    productZero exProdBad ∈
        (getProductsWithPagination (mkDB [exProdBad] [] []) none 1 12 .latest).products ∧
    ∃ q : ℚ, (productZero exProdBad).price = some q := by
  refine ⟨by decide, ?_⟩
  exact c8_pagination_price_never_nan (mkDB [exProdBad] [] []) none 1 12 .latest
    (productZero exProdBad) (by decide)

/-! ## C2 — the success path writes a pending order whose amount the
line items sum to -/

/-- Σ(quantity × price) over a batch of order-item rows, accumulated
exactly as the cart summary accumulates its total amount. -/
def batchSum (l : List OrderItemRow) : JNum :=
  l.foldl (fun acc it => jadd acc (jmul it.price (jofNat it.quantity))) (jofNat 0)

/-- Adding the constant-zero shipping fee changes no JS number. -/
theorem jadd_jofNat_zero (a : JNum) : jadd a (jofNat 0) = a := by
  cases a <;> simp [jadd, jofNat]

/-- The order-item batch built from the cart lines sums exactly like the
cart lines themselves. -/
theorem batchSum_foldl_map (items : List CartItemWithProduct) (oid : Nat) :
    ∀ acc : JNum,
      (items.map fun it =>
          OrderItemRow.mk oid it.product_id it.product.name it.quantity it.product.price).foldl
        (fun acc it => jadd acc (jmul it.price (jofNat it.quantity))) acc =
      items.foldl (fun acc it => jadd acc (jmul it.product.price (jofNat it.quantity))) acc := by
  induction items with
  | nil => intro acc; rfl
  | cons x xs ih => intro acc; simp only [List.map_cons, List.foldl_cons]; exact ih _

/-- A successful `getCartItemsE` read is the pure join. -/
theorem getCartItemsE_ok {db : DB} {u : String} {items : List CartItemWithProduct}
    (h : getCartItemsE db u = .ok items) : items = getCartItemsOk db u := by
  unfold getCartItemsE at h
  split at h
  · exact absurd h (by simp)
  · injection h with h'
    exact h'.symm

/-- A successful `getCartSummaryE` read is the summary of the pure join. -/
theorem getCartSummaryE_ok {db : DB} {u : String} {s : CartSummary}
    (h : getCartSummaryE db u = .ok s) : s = cartSummaryOf (getCartItemsOk db u) := by
  unfold getCartSummaryE getCartItemsE at h
  split at h
  · exact absurd h (by simp [Except.map])
  · simp only [Except.map] at h
    injection h with h'
    exact h'.symm

/-- C2: every successful run of `createOrderAction` appended exactly one
order row, with status `"pending"` and total amount equal to the
server-recomputed grand total (`totalAmount + shippingFee` from the cart
summary, the shipping fee being zero), and appended a batch of
order-item rows whose Σ(quantity × price) equals that order's total
amount. -/
theorem c2_success_order_invariants (db : DB) (uid : Option String) (od : CreateOrderData)
    (oid : Nat) (db' : DB)
    (h : createOrderAction db uid od = (.success oid, db')) :
    ∃ (u : String) (ord : OrderRow) (batch : List OrderItemRow),
      uid = some u ∧
      db'.orders = db.orders ++ [ord] ∧
      ord.id = oid ∧
      ord.status = "pending" ∧
      ord.total_amount = (cartSummaryOf (getCartItemsOk db u)).grandTotal ∧
      db'.order_items = db.order_items ++ batch ∧
      batchSum batch = ord.total_amount := by
  unfold createOrderAction at h
  revert h
  cases hbody : createOrderBody db uid od with
  | error p => intro h; exact absurd h (by simp)
  | ok r =>
    intro h
    subst h
    simp only [createOrderBody] at hbody
    split at hbody
    · exact absurd hbody (by simp)
    next userId =>
      split at hbody
      · exact absurd hbody (by simp)
      next addr _ =>
        split at hbody
        · exact absurd hbody (by simp)
        · split at hbody
          · exact absurd hbody (by simp)
          next cartItems hItems =>
            split at hbody
            · exact absurd hbody (by simp)
            · split at hbody
              · exact absurd hbody (by simp)
              next cartSummary hSum =>
                split at hbody
                · exact absurd hbody (by simp)
                · split at hbody
                  · exact absurd hbody (by simp)
                  · split at hbody
                    · exact absurd hbody (by simp)
                    · split at hbody
                      · exact absurd hbody (by simp)
                      · injection hbody with hbody
                        injection hbody with h1 h2
                        injection h1 with h1
                        refine ⟨userId,
                          ⟨db.nextOrderId, userId, cartSummary.grandTotal, "pending", addr,
                            match od.orderNote with
                            | some s => if s = "" then none else some s
                            | none => none⟩,
                          cartItems.map (fun it =>
                            OrderItemRow.mk db.nextOrderId it.product_id it.product.name
                              it.quantity it.product.price),
                          rfl, ?_, h1, rfl, ?_, ?_, ?_⟩
                        · rw [← h2]; simp [clearCartRows]
                        · show cartSummary.grandTotal = _
                          rw [getCartSummaryE_ok hSum]
                        · rw [← h2]; simp [clearCartRows]
                        · show batchSum (cartItems.map _) = cartSummary.grandTotal
                          rw [getCartSummaryE_ok hSum, getCartItemsE_ok hItems]
                          unfold batchSum cartSummaryOf
                          rw [batchSum_foldl_map]
                          exact (jadd_jofNat_zero _).symm

/-- The concrete database of the C2 witness run. -/
def exC2db : DB := mkDB [exProd1] [exCart1] []

/-- The concrete order input of the C2 witness run: expected total 10,
matching the single 10-per-unit cart line. -/
def exC2od : CreateOrderData := ⟨some exAddr, none, some 10⟩

/-- Witness for C2: a concrete successful run satisfies the invariant. -/
theorem c2_success_witness :
    ∃ (u : String) (ord : OrderRow) (batch : List OrderItemRow),
      (some "u" : Option String) = some u ∧
      (createOrderAction exC2db (some "u") exC2od).2.orders = exC2db.orders ++ [ord] ∧
      ord.id = 1 ∧
      ord.status = "pending" ∧
      ord.total_amount = (cartSummaryOf (getCartItemsOk exC2db u)).grandTotal ∧
      (createOrderAction exC2db (some "u") exC2od).2.order_items =
        exC2db.order_items ++ batch ∧
      batchSum batch = ord.total_amount := by
  have h1 : (createOrderAction exC2db (some "u") exC2od).1 = .success 1 := by
    norm_num [createOrderAction, createOrderBody, exC2db, exC2od, jleB, jgtB, jabs, jsub,
      jadd, jmul, jofNat, getCartItemsE, getCartSummaryE, getCartItemsOk, cartSummaryOf,
      clearCartRows, mkDB, sortDescNat, List.insertionSort, exProd1, exCart1, productRaw,
      Except.map, List.filterMap_cons, List.find?, List.foldl_cons]
  exact c2_success_order_invariants exC2db (some "u") exC2od 1 _ (by rw [← h1])

/-! ## C5 — adding the same product twice merges quantities into one row -/

/-- C5: starting from a cart with no row for the pair `(u, pid)` — the
product being present, active and stocked enough for `q1 + q2`, and the
next cart id fresh — calling `addToCart` with `q1` and then with `q2`
succeeds twice and leaves *exactly one* cart row for the pair, whose
stored quantity is `q1 + q2` (merge semantics, no duplicate row). -/
theorem c5_add_twice_merges (db : DB) (u : String) (pid : Nat) (q1 q2 : Nat)
    (p : ProductRow)
    (hp : db.products.filter (fun r => r.id == pid && r.is_active) = [p])
    (hq1 : 1 ≤ q1) (hq2 : 1 ≤ q2) (hsum : q1 + q2 ≤ p.stock_quantity)
    (hnone : db.cart_items.filter (fun r => r.clerk_id == u && r.product_id == pid) = []) :
    ∃ r1 db1 r2 db2,
      addToCart db u pid q1 = .ok (r1, db1) ∧
      addToCart db1 u pid q2 = .ok (r2, db2) ∧
      db2.cart_items.filter (fun r => r.clerk_id == u && r.product_id == pid) =
        [⟨db.nextCartId, u, pid, q1 + q2, db.nowTime⟩] := by
  have hs0 : ¬ p.stock_quantity = 0 := by omega
  have hfind : findOne? (fun r : ProductRow => r.id == pid && r.is_active) db.products
      = some p := by
    unfold findOne?; rw [hp]
  have hcfind : findOne? (fun r : CartRow => r.clerk_id == u && r.product_id == pid)
      db.cart_items = none := by
    unfold findOne?; rw [hnone]
  have e1 : addToCart db u pid q1 =
      .ok (⟨db.nextCartId, u, pid, q1, db.nowTime⟩,
        { db with
            cart_items := db.cart_items ++ [⟨db.nextCartId, u, pid, q1, db.nowTime⟩],
            nextCartId := db.nextCartId + 1 }) := by
    simp only [addToCart, hfind, hcfind]
    rw [if_neg hs0, if_neg (show ¬ p.stock_quantity < q1 by omega)]
  have hcfind2 : findOne? (fun r : CartRow => r.clerk_id == u && r.product_id == pid)
      (db.cart_items ++ [⟨db.nextCartId, u, pid, q1, db.nowTime⟩])
      = some ⟨db.nextCartId, u, pid, q1, db.nowTime⟩ := by
    unfold findOne?
    rw [List.filter_append, hnone]
    simp
  have e2 : addToCart
      { db with
          cart_items := db.cart_items ++ [⟨db.nextCartId, u, pid, q1, db.nowTime⟩],
          nextCartId := db.nextCartId + 1 } u pid q2 =
      .ok (⟨db.nextCartId, u, pid, q1 + q2, db.nowTime⟩,
        { db with
            cart_items :=
              (db.cart_items ++ [(⟨db.nextCartId, u, pid, q1, db.nowTime⟩ : CartRow)]).map
                (fun r : CartRow =>
                  if r.id == db.nextCartId then { r with quantity := q1 + q2 } else r),
            nextCartId := db.nextCartId + 1 }) := by
    simp only [addToCart, hfind, hcfind2]
    rw [if_neg hs0, if_neg (show ¬ p.stock_quantity < q1 + q2 by omega)]
  have hall : ∀ r ∈ db.cart_items, ¬ (r.clerk_id == u && r.product_id == pid) = true :=
    List.filter_eq_nil_iff.mp hnone
  refine ⟨_, _, _, _, e1, e2, ?_⟩
  rw [List.map_append, List.filter_append]
  have hleft : ((db.cart_items.map
      (fun r : CartRow =>
        if r.id == db.nextCartId then { r with quantity := q1 + q2 } else r)).filter
        (fun r : CartRow => r.clerk_id == u && r.product_id == pid)) = [] := by
    apply List.filter_eq_nil_iff.mpr
    intro x hx
    rcases List.mem_map.mp hx with ⟨r, hr, rfl⟩
    by_cases hid : (r.id == db.nextCartId) = true
    · simp only [hid, if_true]
      exact hall r hr
    · simp only [hid, Bool.false_eq_true, if_false]
      exact hall r hr
  rw [hleft]
  simp

/-- Witness for C5: quantities 2 then 2 against stock 5 merge into one
row of quantity 4. -/
theorem c5_witness :
    ∃ r1 db1 r2 db2,
      addToCart (mkDB [exProd1] [] []) "u" 1 2 = .ok (r1, db1) ∧
      addToCart db1 "u" 1 2 = .ok (r2, db2) ∧
      db2.cart_items.filter (fun r => r.clerk_id == "u" && r.product_id == 1) =
        [⟨(mkDB [exProd1] [] []).nextCartId, "u", 1, 2 + 2,
          (mkDB [exProd1] [] []).nowTime⟩] :=
  c5_add_twice_merges (mkDB [exProd1] [] []) "u" 1 2 2 exProd1 (by decide) (by decide)
    (by decide) (by decide) (by decide)

/-! ## C7 — pagination page/count arithmetic -/

/-- C7: for every category filter, page, limit and non-popularity sort
key, the paginated listing reports
`totalPages = max 1 ⌈totalCount / max 1 limit⌉`, a current page equal to
the clamped requested page reduced to `totalPages` when it exceeds it,
and hence `currentPage ≤ totalPages`. -/
theorem c7_pagination_page_bounds (db : DB) (cat : Option String) (page limit : Int)
    (sortBy : SortOption) (h : sortBy ≠ .popularity) :
    (getProductsWithPagination db cat page limit sortBy).totalPages =
      max 1 (ceilDiv (getProductsWithPagination db cat page limit sortBy).totalCount
        (max 1 limit).toNat) ∧
    (getProductsWithPagination db cat page limit sortBy).currentPage =
      min (max 1 page).toNat (getProductsWithPagination db cat page limit sortBy).totalPages ∧
    (getProductsWithPagination db cat page limit sortBy).currentPage ≤
      (getProductsWithPagination db cat page limit sortBy).totalPages := by
  unfold getProductsWithPagination
  rw [if_neg h]
  unfold paginateCore
  exact ⟨rfl, rfl, Nat.min_le_right _ _⟩

/-- Witness for C7 at a concrete call (one product, page 3, limit 2,
newest-first). -/
theorem c7_witness :
    (getProductsWithPagination (mkDB [exProd1] [] []) none 3 2 .latest).totalPages =
      max 1 (ceilDiv (getProductsWithPagination (mkDB [exProd1] [] []) none 3 2
        .latest).totalCount (max 1 (2 : Int)).toNat) ∧
    (getProductsWithPagination (mkDB [exProd1] [] []) none 3 2 .latest).currentPage =
      min (max 1 (3 : Int)).toNat
        (getProductsWithPagination (mkDB [exProd1] [] []) none 3 2 .latest).totalPages ∧
    (getProductsWithPagination (mkDB [exProd1] [] []) none 3 2 .latest).currentPage ≤
      (getProductsWithPagination (mkDB [exProd1] [] []) none 3 2 .latest).totalPages :=
  c7_pagination_page_bounds (mkDB [exProd1] [] []) none 3 2 .latest (by decide)

/-! ## C10 — an over-large page yields an empty product list -/

/-- The ceiling division, multiplied back, covers the dividend. -/
theorem le_ceilDiv_mul (a b : Nat) (hb : 0 < b) : a ≤ ceilDiv a b * b := by
  unfold ceilDiv
  rw [Nat.mul_comm]
  have h1 := Nat.div_add_mod (a + b - 1) b
  have h2 : (a + b - 1) % b < b := Nat.mod_lt _ hb
  omega

/-- Sorting never changes the number of rows. -/
theorem length_sortRows (s : SortOption) (rows : List ProductRow) :
    (sortRows s rows).length = rows.length := by
  cases s <;> simp [sortRows, sortDescNat, sortAscRat, sortDescRat]

/-- C10: on a non-popularity sort, when the clamped requested page
exceeds the reported total page count, the returned products array is
empty — the query offset was computed from the clamped page before the
downward adjustment — while the returned current page is reported as
`totalPages`. -/
theorem c10_overlarge_page_empty_products (db : DB) (cat : Option String)
    (page limit : Int) (sortBy : SortOption) (hsb : sortBy ≠ .popularity)
    (hgt : (getProductsWithPagination db cat page limit sortBy).totalPages <
      (max 1 page).toNat) :
    (getProductsWithPagination db cat page limit sortBy).products = [] ∧
    (getProductsWithPagination db cat page limit sortBy).currentPage =
      (getProductsWithPagination db cat page limit sortBy).totalPages := by
  unfold getProductsWithPagination at hgt ⊢
  rw [if_neg hsb] at hgt ⊢
  unfold paginateCore at hgt ⊢
  simp only at hgt ⊢
  constructor
  · have hvl : 1 ≤ (max 1 limit).toNat := by
      have : (1 : Int) ≤ max 1 limit := le_max_left _ _
      omega
    have hlen : (sortRows sortBy
        (db.products.filter (fun p => p.is_active && matchesCat cat p))).length ≤
        ((max 1 page).toNat - 1) * (max 1 limit).toNat := by
      rw [length_sortRows]
      calc (db.products.filter (fun p => p.is_active && matchesCat cat p)).length
          ≤ ceilDiv (db.products.filter
              (fun p => p.is_active && matchesCat cat p)).length (max 1 limit).toNat *
            (max 1 limit).toNat := le_ceilDiv_mul _ _ hvl
        _ ≤ (max 1
              (ceilDiv (db.products.filter
                (fun p => p.is_active && matchesCat cat p)).length (max 1 limit).toNat)) *
            (max 1 limit).toNat := by
            exact Nat.mul_le_mul_right _ (Nat.le_max_right _ _)
        _ ≤ ((max 1 page).toNat - 1) * (max 1 limit).toNat := by
            exact Nat.mul_le_mul_right _ (by omega)
    rw [List.drop_eq_nil_of_le hlen]
    simp
  · exact Nat.min_eq_right (Nat.le_of_lt hgt)

/-- Witness for C10: two matching products, limit 1, requested page 5 —
the total page count is 2, the returned products are empty and the
current page is reported as 2. -/
theorem c10_witness :
    (getProductsWithPagination (mkDB [exProd1, exProdBad] [] []) none 5 1 .latest).products
        = [] ∧
    (getProductsWithPagination (mkDB [exProd1, exProdBad] [] []) none 5 1
        .latest).currentPage =
      (getProductsWithPagination (mkDB [exProd1, exProdBad] [] []) none 5 1
        .latest).totalPages :=
  c10_overlarge_page_empty_products (mkDB [exProd1, exProdBad] [] []) none 5 1 .latest
    (by decide) (by decide)

/-! ## C9 — what the page-backfill may draw from -/

/-- An association-list lookup misses every key absent from the key
column. -/
theorem lookup_eq_none_of_not_mem_fst (l : List (Nat × Nat)) (pid : Nat)
    (h : pid ∉ l.map (·.1)) : l.lookup pid = none := by
  induction l with
  | nil => rfl
  | cons a l ih =>
    obtain ⟨k, v⟩ := a
    simp only [List.map_cons, List.mem_cons, not_or] at h
    have hk : (pid == k) = false := by simpa using h.1
    simp [List.lookup, hk, ih h.2]

/-- A product id outside the sales map's key set has aggregated sales
zero. -/
theorem salesTotal_eq_zero_of_not_mem_keys (db : DB) (pid : Nat)
    (h : pid ∉ popSalesKeys db) : salesTotal db pid = 0 := by
  unfold salesTotal
  rw [lookup_eq_none_of_not_mem_fst _ _ h]
  rfl

/-- Folding the JS-`Set` deduplication keeps every element. -/
theorem jsDedup_mem_aux (x : Nat) :
    ∀ (l acc : List Nat), (x ∈ acc ∨ x ∈ l) →
      x ∈ l.foldl (fun acc y => if acc.contains y then acc else acc ++ [y]) acc := by
  intro l
  induction l with
  | nil => intro acc h; simpa using h.resolve_right (by simp)
  | cons y l ih =>
    intro acc h
    simp only [List.foldl_cons]
    apply ih
    rcases h with hacc | hl
    · left
      split
      · exact hacc
      · exact List.mem_append_left _ hacc
    · rcases List.mem_cons.mp hl with rfl | hl
      · left
        split
        next hc => exact List.elem_iff.mp hc
        next => exact List.mem_append_right _ (List.mem_singleton_self _)
      · right; exact hl

/-- `jsDedup` keeps every element of its input. -/
theorem mem_jsDedup_of_mem {l : List Nat} {x : Nat} (h : x ∈ l) : x ∈ jsDedup l :=
  jsDedup_mem_aux x l [] (Or.inr h)

/-- C9 amended: every product of the page backfill is active and is not
among the already-selected products of the page; it is additionally
guaranteed to have zero aggregated sales only when the combined
exclusion list (`idsToExclude`) has at most 100 entries — the size guard
around the Supabase `in`-filter skips the sales-id exclusion for larger
lists. -/
theorem c9_padding_only_active_unselected_nosales (db : DB) (cat : Option String)
    (page limit : Nat) (p : Product)
    (hp : p ∈ popPadding db cat page limit) :
    p.is_active = true ∧
    p.id ∉ popExistingIds db cat page limit ∧
    ((popIdsToExclude db cat page limit).length ≤ 100 → salesTotal db p.id = 0) := by
  simp only [popPadding] at hp
  rcases List.mem_map.mp hp with ⟨rowp, hrow, rfl⟩
  have h2 := List.mem_of_mem_take hrow
  have hbase : ∀ q : ProductRow,
      q ∈ sortDescNat (fun r : ProductRow => r.created_at)
        (db.products.filter (fun r => r.is_active && matchesCat cat r)) →
      q.is_active = true := by
    intro q hq
    have := (List.perm_insertionSort _ _).mem_iff.mp hq
    exact (Bool.and_eq_true .. ▸ (List.mem_filter.mp this).2).1
  split at h2
  next hsize =>
    -- the sales-id exclusion filter was applied
    have h3 := List.mem_filter.mp h2
    have hnotin2 : rowp.id ∉ popIdsToExclude db cat page limit := by
      simpa using h3.2
    have h4 := h3.1
    have hact : rowp.is_active = true ∧
        rowp.id ∉ popExistingIds db cat page limit := by
      split at h4
      next hemp =>
        exact ⟨hbase _ h4, by simp [List.isEmpty_iff.mp hemp]⟩
      next =>
        have h5 := List.mem_filter.mp h4
        exact ⟨hbase _ h5.1, by simpa using h5.2⟩
    refine ⟨hact.1, hact.2, fun _ => ?_⟩
    apply salesTotal_eq_zero_of_not_mem_keys
    intro hkeys
    exact hnotin2 (mem_jsDedup_of_mem (List.mem_append_right _ hkeys))
  next hsize =>
    -- the size guard skipped the sales-id exclusion
    have hact : rowp.is_active = true ∧
        rowp.id ∉ popExistingIds db cat page limit := by
      split at h2
      next hemp =>
        exact ⟨hbase _ h2, by simp [List.isEmpty_iff.mp hemp]⟩
      next =>
        have h5 := List.mem_filter.mp h2
        exact ⟨hbase _ h5.1, by simpa using h5.2⟩
    refine ⟨hact.1, hact.2, fun hle => ?_⟩
    have hz : (popIdsToExclude db cat page limit).length = 0 := by omega
    have hnil : popIdsToExclude db cat page limit = [] := List.length_eq_zero.mp hz
    apply salesTotal_eq_zero_of_not_mem_keys
    intro hkeys
    have : rowp.id ∈ popIdsToExclude db cat page limit :=
      mem_jsDedup_of_mem (List.mem_append_right _ hkeys)
    rw [hnil] at this
    exact absurd this (List.not_mem_nil _)

/-- The database of the C9 witness: product 1 has sales, product 2 has
none, and the single-page slice holds product 1 only, so the backfill is
exactly product 2. -/
def exC9w : DB := mkDB [exProd1, exProdBad] [] [⟨0, 1, "상품1", 2, some 10⟩]

/-- Witness for the amended C9: the concrete backfill product is active,
unselected, and — the exclusion list being small — sales-free. -/
theorem c9_padding_witness :
    (productZero exProdBad).is_active = true ∧
    (productZero exProdBad).id ∉ popExistingIds exC9w none 1 3 ∧
    ((popIdsToExclude exC9w none 1 3).length ≤ 100 →
      salesTotal exC9w (productZero exProdBad).id = 0) :=
  c9_padding_only_active_unselected_nosales exC9w none 1 3 (productZero exProdBad)
    (by decide)

/-- The database of the C9 counterexample: three active products,
products 1 and 2 both have sales, and 99 further order lines reference
phantom product ids, pushing the combined exclusion list over the 100-id
guard. -/
def exC9big : DB :=
  mkDB [⟨1, "P1", some 1, "books", 5, true, 1⟩, ⟨2, "P2", some 1, "books", 5, true, 2⟩,
      ⟨3, "P3", some 1, "books", 5, true, 3⟩]
    []
    ([⟨0, 1, "P1", 2, some 1⟩, ⟨0, 2, "P2", 1, some 1⟩] ++
      (List.range 99).map (fun i => ⟨0, 1000 + i, "X", 1, some 1⟩))

set_option maxRecDepth 4000 in
/-- Counterexample to C9 as stated: on page 2 with limit 2 the
sales-ranked slice is empty, so the whole page is backfill — and
because `idsToExclude` has 101 entries the sales-id exclusion is
skipped, so the backfill contains product 2, which has nonzero
aggregated sales. -/
theorem c9_counterexample_exclusion_guard_skipped :
    (byPopularity exC9big none 2 2).products =
      popSlice exC9big none 2 2 ++ popPadding exC9big none 2 2 ∧
    100 < (popIdsToExclude exC9big none 2 2).length ∧
    (popPadding exC9big none 2 2).any
      (fun p => decide (salesTotal exC9big p.id ≠ 0)) = true := by
  refine ⟨by decide, by decide, by decide⟩

/-! ## C6 — size and distinctness of the popular-products result -/

/-- Filtering preserves distinctness of the id column. -/
theorem nodup_ids_filter {l : List ProductRow} (h : (l.map (·.id)).Nodup)
    (p : ProductRow → Bool) : ((l.filter p).map (·.id)).Nodup :=
  h.sublist ((l.filter_sublist).map _)

/-- `productRaw` keeps the id column. -/
theorem map_id_map_productRaw (l : List ProductRow) :
    (l.map productRaw).map (fun p : Product => p.id) = l.map (·.id) := by
  rw [List.map_map]
  rfl

/-- The id column of a descending sort is a permutation of the input's. -/
theorem ids_sortDescNat_perm (key : ProductRow → Nat) (l : List ProductRow) :
    ((sortDescNat key l).map (·.id)).Perm (l.map (·.id)) :=
  (List.perm_insertionSort _ l).map _

/-- The recency-and-cut read's length is `min limit (number of active
products)`. -/
theorem length_latestActive (db : DB) (limit : Nat) :
    (latestActive db limit).length = min limit (db.products.filter (·.is_active)).length := by
  simp [latestActive, sortDescNat]

/-- The recency-and-cut read has a duplicate-free id column. -/
theorem nodup_ids_latestActive (db : DB) (limit : Nat)
    (hid : (db.products.map (·.id)).Nodup) :
    ((latestActive db limit).map (fun p : Product => p.id)).Nodup := by
  unfold latestActive
  rw [map_id_map_productRaw]
  have h1 : ((sortDescNat (fun p : ProductRow => p.created_at)
      (db.products.filter (·.is_active))).map (·.id)).Nodup :=
    (ids_sortDescNat_perm _ _).nodup_iff.mpr (nodup_ids_filter hid _)
  exact h1.sublist ((List.take_sublist _ _).map _)

/-- The sales-ranked pool's length is the number of active products with
an order-line entry. -/
theorem length_popRankedAll (db : DB) :
    (popRankedAll db).length =
      (db.products.filter
        (fun p => p.is_active && (popSalesKeys db).contains p.id)).length := by
  simp [popRankedAll, sortDescNat]

/-- Step 3 never exceeds the requested limit. -/
theorem length_popular0_le (db : DB) (limit : Nat) :
    (popular0 db limit).length ≤ limit := by
  unfold popular0
  split
  · simp
  · simp [List.length_take]

/-- Step 3 never exceeds the sales-ranked pool. -/
theorem length_popular0_le_pool (db : DB) (limit : Nat) :
    (popular0 db limit).length ≤
      (db.products.filter
        (fun p => p.is_active && (popSalesKeys db).contains p.id)).length := by
  unfold popular0
  split
  · simp
  · rw [← length_popRankedAll]
    simp [List.length_take]

/-- Step 3 has a duplicate-free id column. -/
theorem nodup_ids_popular0 (db : DB) (limit : Nat)
    (hid : (db.products.map (·.id)).Nodup) :
    ((popular0 db limit).map (fun p : Product => p.id)).Nodup := by
  unfold popular0
  split
  · simp
  · unfold popRankedAll
    rw [← List.map_take, map_id_map_productRaw]
    have h1 : ((sortDescNat (fun p => salesTotal db p.id)
        (db.products.filter
          (fun p => p.is_active && (popSalesKeys db).contains p.id))).map (·.id)).Nodup :=
      (ids_sortDescNat_perm _ _).nodup_iff.mpr (nodup_ids_filter hid _)
    exact h1.sublist ((List.take_sublist _ _).map _)

/-- Step 3's ids all belong to the sales-ranked pool. -/
theorem popular0_ids_subset_pool (db : DB) (limit : Nat) :
    ((popular0 db limit).map (fun p : Product => p.id)) ⊆
      (db.products.filter
        (fun p => p.is_active && (popSalesKeys db).contains p.id)).map (·.id) := by
  unfold popular0
  split
  · simp
  · unfold popRankedAll
    rw [← List.map_take, map_id_map_productRaw]
    intro x hx
    rcases List.mem_map.mp hx with ⟨q, hq, rfl⟩
    have hq3 : q ∈ db.products.filter
        (fun p => p.is_active && (popSalesKeys db).contains p.id) :=
      (List.perm_insertionSort _ _).mem_iff.mp (List.mem_of_mem_take hq)
    exact List.mem_map_of_mem _ hq3

/-- Ids of the sales-ranked pool are ids of active products. -/
theorem pool_ids_subset_active (db : DB) :
    ((db.products.filter
        (fun p => p.is_active && (popSalesKeys db).contains p.id)).map (·.id)) ⊆
      (db.products.filter (·.is_active)).map (·.id) := by
  intro x hx
  rcases List.mem_map.mp hx with ⟨q, hq, rfl⟩
  have h1 := List.mem_filter.mp hq
  exact List.mem_map_of_mem _
    (List.mem_filter.mpr ⟨h1.1, (Bool.and_eq_true .. ▸ h1.2).1⟩)

/-- When every active product fits in the limit, the recency-and-cut
read carries every active product's id. -/
theorem active_ids_subset_latest (db : DB) (limit : Nat)
    (h : (db.products.filter (·.is_active)).length ≤ limit) :
    ((db.products.filter (·.is_active)).map (·.id)) ⊆
      (latestActive db limit).map (fun p : Product => p.id) := by
  unfold latestActive
  rw [List.take_of_length_le (by simpa [sortDescNat] using h), map_id_map_productRaw]
  intro x hx
  exact ((ids_sortDescNat_perm _ _).mem_iff).mpr hx

/-- A filter on id-containment keeps no more rows than the id list has
entries (the result's ids are distinct and all drawn from it). -/
theorem length_filter_contains_le (l : List Product) (S : List Nat)
    (h : (l.map (fun p : Product => p.id)).Nodup) :
    (l.filter (fun p => S.contains p.id)).length ≤ S.length := by
  have hnd : ((l.filter (fun p => S.contains p.id)).map (fun p : Product => p.id)).Nodup :=
    h.sublist ((l.filter_sublist).map _)
  have hsub : ((l.filter (fun p => S.contains p.id)).map (fun p : Product => p.id)) ⊆ S := by
    intro x hx
    rcases List.mem_map.mp hx with ⟨q, hq, rfl⟩
    simpa using (List.mem_filter.mp hq).2
  have := (List.Nodup.subperm hnd hsub).length_le
  simpa using this

/-- A filter on id-containment keeps exactly one row per listed id when
the list is duplicate-free and every listed id occurs. -/
theorem length_filter_contains_eq (l : List Product) (S : List Nat)
    (hl : (l.map (fun p : Product => p.id)).Nodup) (hS : S.Nodup)
    (hsub : S ⊆ l.map (fun p : Product => p.id)) :
    (l.filter (fun p => S.contains p.id)).length = S.length := by
  refine Nat.le_antisymm (length_filter_contains_le l S hl) ?_
  have hsub2 : S ⊆ (l.filter (fun p => S.contains p.id)).map (fun p : Product => p.id) := by
    intro x hxS
    rcases List.mem_map.mp (hsub hxS) with ⟨q, hq, rfl⟩
    exact List.mem_map_of_mem _
      (List.mem_filter.mpr ⟨hq, by simpa using hxS⟩)
  have := (List.Nodup.subperm hS hsub2).length_le
  simpa using this

/-- The complementary id-containment filters split a list's length. -/
theorem length_filter_not_contains_add (l : List Product) (S : List Nat) :
    (l.filter (fun p => ! S.contains p.id)).length +
      (l.filter (fun p => S.contains p.id)).length = l.length := by
  have h := List.length_eq_length_filter_add (l := l) (fun p : Product => S.contains p.id)
  simp only [] at h
  omega

/-- Step 4 always produces `min limit (number of active products)`
products. -/
theorem length_popular1 (db : DB) (limit : Nat)
    (hid : (db.products.map (·.id)).Nodup) :
    (popular1 db limit).length = min limit (db.products.filter (·.is_active)).length := by
  have hk_le := length_popular0_le db limit
  have hk_pool := length_popular0_le_pool db limit
  have hW_nodup : ((db.products.filter
      (fun p => p.is_active && (popSalesKeys db).contains p.id)).map (·.id)).Nodup :=
    nodup_ids_filter hid _
  have hW_le_A : (db.products.filter
      (fun p => p.is_active && (popSalesKeys db).contains p.id)).length ≤
      (db.products.filter (·.is_active)).length := by
    have h1 := (List.Nodup.subperm hW_nodup (pool_ids_subset_active db)).length_le
    simpa using h1
  have hL_len := length_latestActive db limit
  unfold popular1
  split
  next hlt =>
    rw [List.length_append, List.length_take]
    have hsplit := length_filter_not_contains_add (latestActive db limit)
      ((popular0 db limit).map (fun p : Product => p.id))
    have hm_le : ((latestActive db limit).filter
        (fun p => ((popular0 db limit).map (fun p : Product => p.id)).contains p.id)).length ≤
        (popular0 db limit).length := by
      have := length_filter_contains_le (latestActive db limit)
        ((popular0 db limit).map (fun p : Product => p.id)) (nodup_ids_latestActive db limit hid)
      simpa using this
    by_cases hA : limit ≤ (db.products.filter (·.is_active)).length
    · omega
    · have hAle : (db.products.filter (·.is_active)).length ≤ limit := by omega
      have hsub : ((popular0 db limit).map (fun p : Product => p.id)) ⊆
          (latestActive db limit).map (fun p : Product => p.id) := fun x hx =>
        active_ids_subset_latest db limit hAle
          (pool_ids_subset_active db (popular0_ids_subset_pool db limit hx))
      have hm_eq : ((latestActive db limit).filter
          (fun p => ((popular0 db limit).map (fun p : Product => p.id)).contains p.id)).length =
          (popular0 db limit).length := by
        have := length_filter_contains_eq (latestActive db limit)
          ((popular0 db limit).map (fun p : Product => p.id))
          (nodup_ids_latestActive db limit hid) (nodup_ids_popular0 db limit hid) hsub
        simpa using this
      omega
  next hge =>
    omega

/-- Step 4 has a duplicate-free id column: the backfill filter excludes
every already-selected id. -/
theorem nodup_ids_popular1 (db : DB) (limit : Nat)
    (hid : (db.products.map (·.id)).Nodup) :
    ((popular1 db limit).map (fun p : Product => p.id)).Nodup := by
  unfold popular1
  split
  · rw [List.map_append]
    refine List.Nodup.append (nodup_ids_popular0 db limit hid) ?_ ?_
    · exact (nodup_ids_latestActive db limit hid).sublist
        ((List.Sublist.trans (List.take_sublist _ _) (List.filter_sublist _)).map _)
    · intro a ha hb
      rcases List.mem_map.mp hb with ⟨q, hq, rfl⟩
      have hq2 := List.mem_filter.mp (List.mem_of_mem_take hq)
      have : q.id ∉ (popular0 db limit).map (fun p : Product => p.id) := by
        simpa using hq2.2
      exact this ha
  · exact nodup_ids_popular0 db limit hid

/-- With no order line at all, steps 3–4 reduce to the recency-and-cut
read. -/
theorem popular1_no_sales (db : DB) (limit : Nat) (h0 : db.order_items = []) :
    popular1 db limit = latestActive db limit := by
  have hkeys : popSalesKeys db = [] := by simp [popSalesKeys, salesFold, h0]
  have hpop0 : popular0 db limit = [] := by simp [popular0, hkeys]
  have hLle : (latestActive db limit).length ≤ limit := by
    rw [length_latestActive]; exact Nat.min_le_left _ _
  unfold popular1
  rw [hpop0]
  simp only [List.length_nil, List.map_nil, List.nil_append, Nat.sub_zero]
  split
  next =>
    have hfilter : (latestActive db limit).filter
        (fun p => ! (([] : List Nat).contains p.id)) = latestActive db limit :=
      List.filter_eq_self.mpr (fun a _ => rfl)
    rw [hfilter, List.take_of_length_le hLle]
  next hlim =>
    have h0' : limit = 0 := by omega
    subst h0'
    have : (latestActive db 0).length = 0 := by
      rw [length_latestActive]; exact Nat.zero_min _
    exact (List.length_eq_zero.mp this).symm

/-- C6: with distinct product ids (and under the no-enrichment-failure
semantics the model embodies), `getPopularProducts` returns a list of
distinct products of length exactly `min limit (number of active
products)`; and with no order line at all it returns exactly the
most-recently-created active products cut to the limit, in recency
order. -/
theorem c6_popular_products_count (db : DB) (limit : Nat)
    (hid : (db.products.map (·.id)).Nodup) :
    ((getPopularProducts db limit).map (fun p : Product => p.id)).Nodup ∧
    (getPopularProducts db limit).length =
      min limit (db.products.filter (·.is_active)).length ∧
    (db.order_items = [] → getPopularProducts db limit = latestActive db limit) := by
  unfold getPopularProducts
  refine ⟨?_, ?_, ?_⟩
  · split
    · exact nodup_ids_latestActive db limit hid
    · exact nodup_ids_popular1 db limit hid
  · split
    · exact length_latestActive db limit
    · exact length_popular1 db limit hid
  · intro h0
    split
    · rfl
    · exact popular1_no_sales db limit h0

/-- Witness for C6 at a concrete state: two active products, sales on
product 1 only, limit 3 — the result is the two products, distinct,
`min 3 2 = 2` of them, and the no-sales clause at the empty-sales
variant. -/
theorem c6_witness :
    ((getPopularProducts (mkDB [exProd1, exProdBad] [] [⟨0, 1, "상품1", 2, some 10⟩]) 3).map
        (fun p : Product => p.id)).Nodup ∧
    (getPopularProducts (mkDB [exProd1, exProdBad] [] [⟨0, 1, "상품1", 2, some 10⟩]) 3).length =
      min 3 ((mkDB [exProd1, exProdBad] [] [⟨0, 1, "상품1", 2, some 10⟩]).products.filter
        (·.is_active)).length ∧
    ((mkDB [exProd1, exProdBad] [] [⟨0, 1, "상품1", 2, some 10⟩]).order_items = [] →
      getPopularProducts (mkDB [exProd1, exProdBad] [] [⟨0, 1, "상품1", 2, some 10⟩]) 3 =
        latestActive (mkDB [exProd1, exProdBad] [] [⟨0, 1, "상품1", 2, some 10⟩]) 3) :=
  c6_popular_products_count (mkDB [exProd1, exProdBad] [] [⟨0, 1, "상품1", 2, some 10⟩]) 3
    (by decide)

end Shop
